import Mathlib

/-!
# The translator form of `src/App.jsx`

A shallow embedding of the React component `App`: its four `useState` cells, the
three event handlers wired in the rendered tree (`textarea` `onChange`, `select`
`onChange`, `button` `onClick`), the asynchronous function `translateText`,
split at its single `await` into the part that issues the request and the part
that runs once the request promise has settled, and the one place where the
rendered tree can throw, the child `{translation}` of the result paragraph.
-/

namespace App

/-! ## JavaScript values -/

/-- JavaScript values, as far as the component can observe them: the request
body it builds, the `data` of a response (parsed JSON, or the raw string when
the body did not parse), the value thrown by a rejected promise, and whatever
ends up in the `translation` cell. An object is the list of its own properties;
for a repeated key the first entry is the one a property read sees. Numbers are
carried as integers: the component never computes with them. -/
inductive JSValue where
  | undefined
  | null
  | bool (b : Bool)
  | number (n : Int)
  | string (s : String)
  | array (items : List JSValue)
  | object (props : List (String × JSValue))

/-- Own-property lookup in an object's property list. -/
def lookupProp (k : String) : List (String × JSValue) → Option JSValue
  | [] => none
  | (k', v) :: rest => if k' = k then some v else lookupProp k rest

/-- The value thrown when a property is read from `null` or `undefined`. -/
def typeError : JSValue :=
  .object [("name", .string "TypeError")]

/-- The member expression `v.translation` (line 16, applied to `response.data`):
reading from `undefined` or `null` throws a `TypeError`; an object yields its
`translation` property, `undefined` when it has none; every other value
(boolean, number, string, array) has no such property and yields `undefined`. -/
def JSValue.translation : JSValue → Except JSValue JSValue
  | .undefined => .error typeError
  | .null => .error typeError
  | .object props => .ok ((lookupProp "translation" props).getD .undefined)
  | .bool _ => .ok .undefined
  | .number _ => .ok .undefined
  | .string _ => .ok .undefined
  | .array _ => .ok .undefined

mutual
/-- Whether React accepts the value as a child of an element, as in
`<p>{translation}</p>` (line 41): strings and numbers are shown as text,
booleans, `null` and `undefined` as nothing, an array when each of its items is
accepted; a plain object is refused ("Objects are not valid as a React child")
and the render throws. A parsed response body never holds a React element. -/
def JSValue.renderable : JSValue → Bool
  | .undefined => true
  | .null => true
  | .bool _ => true
  | .number _ => true
  | .string _ => true
  | .array items => renderableAll items
  | .object _ => false
/-- Whether React accepts every item of an array of children. -/
def renderableAll : List JSValue → Bool
  | [] => true
  | v :: vs => v.renderable && renderableAll vs
end

/-! ## Component state -/

/-- The four `useState` cells of `App` (lines 5-8). `text`, `sourceLang` and
`targetLang` only ever receive strings (`e.target.value`); `translation`
receives `response.data.translation`, which can be any value. -/
structure State where
  text : String
  translation : JSValue
  sourceLang : String
  targetLang : String

/-- The initial values passed to `useState` (lines 5-8). -/
def State.initial : State :=
  { text := "", translation := .string "", sourceLang := "auto", targetLang := "en" }

/-- Setter `setText` (line 5). -/
def setText (v : String) (s : State) : State :=
  { s with text := v }

/-- Setter `setTranslation` (line 6). -/
def setTranslation (v : JSValue) (s : State) : State :=
  { s with translation := v }

/-- Setter `setSourceLang` (line 7); declared by the component and called nowhere. -/
def setSourceLang (v : String) (s : State) : State :=
  { s with sourceLang := v }

/-- Setter `setTargetLang` (line 8). -/
def setTargetLang (v : String) (s : State) : State :=
  { s with targetLang := v }

/-- The `option` elements of the `select` (lines 34-36): value and label. -/
def options : List (String × String) :=
  [("en", "English"), ("hi", "Hindi"), ("fr", "French")]

/-! ## Requests and responses -/

/-- One call `axios.post(url, data)`. -/
structure Request where
  url : String
  data : JSValue

/-- What `axios.post` resolves with; only `data` is read by the component. -/
structure Response where
  status : Nat
  data : JSValue

/-- How the promise returned by `axios.post` settles. -/
inductive Outcome where
  | resolved (response : Response)
  | rejected (error : JSValue)

/-- The arguments of the `axios.post` call (lines 12-15). -/
def translateText_request (s : State) : Request :=
  { url := "http://127.0.0.1:8000/translate"
    data := .object [("text", .string s.text), ("target_lang", .string s.targetLang)] }

/-- The component together with its surroundings: the requests sent so far (in
the order sent), the indices into `outbox` of the requests still in flight, and
the argument lists of the `console.error` calls made so far. -/
structure World where
  state : State
  outbox : List Request
  pending : List Nat
  console : List (List JSValue)

/-- The freshly mounted component: nothing sent, nothing logged. -/
def World.initial : World :=
  { state := State.initial, outbox := [], pending := [], console := [] }

/-- The function `translateText` up to its `await` (lines 10-15): the request is sent and is
now in flight. -/
def translateText_start (w : World) : World :=
  { w with
    outbox := w.outbox ++ [translateText_request w.state]
    pending := w.pending ++ [w.outbox.length] }

/-- The rest of the `try` block once the promise has settled (lines 12-16): a
rejection is rethrown by `await`; otherwise `response.data.translation` is
evaluated (which may throw) and handed to `setTranslation`. -/
def translateText_try (o : Outcome) (s : State) : Except JSValue State :=
  match o with
  | .rejected error => .error error
  | .resolved response =>
    match response.data.translation with
    | .error e => .error e
    | .ok v => .ok (setTranslation v s)

/-- The function `translateText` from its `await` on (lines 12-19), for the request with
index `k`: the `try` block, and the `catch` that logs whatever was thrown. The
result is what the `async` function itself does: `.ok` when it returns,
`.error` when something escapes it. -/
def translateText_resume (k : Nat) (o : Outcome) (w : World) : Except JSValue World :=
  match translateText_try o w.state with
  | .ok s => .ok { w with state := s, pending := w.pending.erase k }
  | .error e =>
    .ok { w with
          console := w.console ++ [[.string "Translation Error:", e]]
          pending := w.pending.erase k }

/-- One whole call of `translateText` (lines 10-20) whose request settles with
outcome `o` before anything else happens. -/
def translateText (o : Outcome) (w : World) : Except JSValue World :=
  translateText_resume w.outbox.length o (translateText_start w)

/-! ## Rendering and events -/

/-- Whether the component is still on the page. The returned tree (lines 22-43)
is rendered again after every state change, and the only part of it that can
throw is `{translation}` at line 41. With no error boundary around `App`, React
answers a throwing render by unmounting the whole tree; the offending value
stays in the cell, nothing is shown, and no later update is applied. So the
component is mounted exactly as long as `translation` holds a value React
accepts. -/
def World.mounted (w : World) : Bool :=
  w.state.translation.renderable

/-- The `onChange` handler of the `textarea` (line 29), for typed value `v`. -/
def textarea_onChange (v : String) (w : World) : World :=
  { w with state := setText v w.state }

/-- The `onChange` handler of the `select` (line 33), for the chosen option. -/
def select_onChange (i : Fin options.length) (w : World) : World :=
  { w with state := setTargetLang (options.get i).1 w.state }

/-- What can happen to the component: the user types in the `textarea`
(line 29), picks one of the `option`s of the `select` (line 33), clicks the
button (line 39), or the promise of the in-flight request with index `k`
settles. -/
inductive Event where
  | input (v : String)
  | select (i : Fin options.length)
  | click
  | settle (k : Nat) (o : Outcome)

/-- The effect of one event; `none` when the event cannot happen: the three
user events need the component on the page, and only a request in flight can
settle. A settlement runs the rest of `translateText` in either case; once the
component is unmounted React drops the `setTranslation` call, so the cells stay
as they were while the `catch` still logs. The render that follows a state
change is not run inside the `try` block (React schedules it), so a refused
child does not reach the `catch`. -/
def step : Event → World → Option World
  | .input v, w => if w.mounted then some (textarea_onChange v w) else none
  | .select i, w => if w.mounted then some (select_onChange i w) else none
  | .click, w => if w.mounted then some (translateText_start w) else none
  | .settle k o, w =>
    if k ∈ w.pending then
      if w.mounted then (translateText_resume k o w).toOption
      else (translateText_resume k o w).toOption.map (fun w' => { w' with state := w.state })
    else none

/-- The effect of a sequence of events, in order. -/
def run : List Event → World → Option World
  | [], w => some w
  | e :: es, w => (step e w).bind (run es)

/-- The value a settlement hands to `setTranslation`, if it gets that far:
`response.data.translation` of a resolved promise whose `data` is neither
`null` nor `undefined`; nothing for a settlement that ends in the `catch`. -/
def Outcome.carried : Outcome → Option JSValue
  | .rejected _ => none
  | .resolved response => response.data.translation.toOption

/-- The outcomes of the settle events of a trace, in the order they settle. -/
def settled : List Event → List Outcome
  | [] => []
  | .settle _ o :: es => o :: settled es
  | .input _ :: es => settled es
  | .select _ :: es => settled es
  | .click :: es => settled es

/-- The value carried by the last settlement of a trace that carried one. -/
def lastCarried (trace : List Outcome) : Option JSValue :=
  (trace.reverse.filterMap Outcome.carried).head?

/-- The spec's reading of a settlement, to compare with `Outcome.carried`
(sections 4.2 and 6 of the spec): a success is a response whose body is an
object with a string `translation`, and it carries that string; any other
status or shape is a failure. -/
def Outcome.specSuccess : Outcome → Option String
  | .rejected _ => none
  | .resolved response =>
    match response.data with
    | .object props =>
      (match lookupProp "translation" props with
        | some (.string s) => some s
        | _ => none)
    | _ => none

/-- The string carried by the last settlement of a trace that is a success in
the spec's reading. -/
def lastSpecSuccess (trace : List Outcome) : Option String :=
  (trace.reverse.filterMap Outcome.specSuccess).head?

/-! ## Named worlds, traces and invariants -/

/-- A mounted component whose display already shows an earlier translation. -/
def shownBonjour : World :=
  { World.initial with state := setTranslation (.string "Bonjour") State.initial }

/-- The double submit of the spec: a request for French is sent first, one for
Hindi second; the Hindi response settles first and the French one last, with a
rejected third request in between. -/
def doubleSubmit : List Event :=
  [ .input "Hello", .select ⟨2, by decide⟩, .click,
    .select ⟨1, by decide⟩, .click, .click,
    .settle 1 (.resolved ⟨200, .object [("translation", .string "नमस्ते")]⟩),
    .settle 2 (.rejected (.string "Network Error")),
    .settle 0 (.resolved ⟨200, .object [("translation", .string "Bonjour")]⟩) ]

/-- Two requests; the second is answered first, with "Bonjour", and the first
is answered last, with a 200 whose body `{}` has no `translation`. -/
def lateEmptyBody : List Event :=
  [ .click, .click,
    .settle 1 (.resolved ⟨200, .object [("translation", .string "Bonjour")]⟩),
    .settle 0 (.resolved ⟨200, .object []⟩) ]

/-- One submission from the fresh form, answered by a 200 whose `translation`
is the number 5. -/
def numberBody : List Event :=
  [ .input "Hello", .click,
    .settle 0 (.resolved ⟨200, .object [("translation", .number 5)]⟩) ]

/-- One submission from the fresh form, answered by a 200 whose body is the
unparsed text of a page. -/
def textBody : List Event :=
  [ .input "Hello", .click, .settle 0 (.resolved ⟨200, .string "<html>"⟩) ]

/-- Two requests; the first is answered with a `translation` that is a plain
object, the second afterwards with "Bonjour". -/
def objectBody : List Event :=
  [ .click, .click,
    .settle 0 (.resolved ⟨200, .object [("translation", .object [("a", .number 1)])]⟩),
    .settle 1 (.resolved ⟨200, .object [("translation", .string "Bonjour")]⟩) ]

/-- Two submissions that both fail, around some edits: the first request is
rejected, the third resolves with a `null` body, the second is rejected with
the error of a 500 response. -/
def failedSubmits : List Event :=
  [ .input "Hello", .click, .settle 0 (.rejected (.string "Network Error")),
    .select ⟨2, by decide⟩, .input "Hello again", .click, .click,
    .settle 2 (.resolved ⟨200, .null⟩),
    .settle 1 (.rejected (.object [("response", .object [("status", .number 500)])])) ]

/-- The target language is an option value, and so is the `target_lang` of
every request sent so far. -/
def TargetLangOk (w : World) : Prop :=
  w.state.targetLang ∈ ["en", "hi", "fr"] ∧
    ∀ r ∈ w.outbox, ∃ t l,
      r.data = .object [("text", .string t), ("target_lang", .string l)] ∧
        l ∈ ["en", "hi", "fr"]

/-! ## Auxiliary facts about one settlement -/

theorem translateText_resume_ok (k : Nat) (o : Outcome) (w : World) :
    ∃ w', translateText_resume k o w = .ok w' ∧
      w'.state = (match o.carried with
        | some v => setTranslation v w.state
        | none => w.state) ∧
      w'.outbox = w.outbox ∧ w'.pending = w.pending.erase k := by
  cases o with
  | rejected error =>
    exact ⟨_, rfl, rfl, rfl, rfl⟩
  | resolved response =>
    obtain ⟨status, data⟩ := response
    cases data <;> exact ⟨_, rfl, rfl, rfl, rfl⟩

theorem translateText_ok (o : Outcome) (w : World) :
    ∃ w', translateText o w = .ok w' ∧
      w'.state = (match o.carried with
        | some v => setTranslation v w.state
        | none => w.state) ∧
      w'.outbox = w.outbox ++ [translateText_request w.state] := by
  obtain ⟨w', h, hs, ho, _⟩ := translateText_resume_ok w.outbox.length o (translateText_start w)
  exact ⟨w', h, hs, ho⟩

theorem step_settle_some (k : Nat) (o : Outcome) (w w' : World)
    (h : step (.settle k o) w = some w') :
    w'.state = (if w.mounted = true then
        (match o.carried with
          | some v => setTranslation v w.state
          | none => w.state)
        else w.state) ∧
      w'.outbox = w.outbox := by
  obtain ⟨w1, h1, hs, ho, _⟩ := translateText_resume_ok k o w
  simp only [step] at h
  split at h
  · rw [h1] at h
    by_cases hm : w.mounted = true
    · rw [if_pos hm] at h
      simp only [Except.toOption, Option.some.injEq] at h
      subst h
      rw [if_pos hm]
      exact ⟨hs, ho⟩
    · rw [if_neg hm] at h
      simp only [Except.toOption, Option.map_some', Option.some.injEq] at h
      subst h
      rw [if_neg hm]
      exact ⟨rfl, ho⟩
  · cases h

theorem step_user_some (e : Event) (w w' : World) (h : step e w = some w')
    (he : ∀ k o, e ≠ .settle k o) :
    w.mounted = true ∧ w'.state.translation = w.state.translation ∧
      w'.state.sourceLang = w.state.sourceLang ∧
      (w'.state.targetLang = w.state.targetLang ∨
        ∃ i : Fin options.length, w'.state.targetLang = (options.get i).1) ∧
      (w'.outbox = w.outbox ∨ w'.outbox = w.outbox ++ [translateText_request w.state]) := by
  cases e with
  | input v =>
    simp only [step] at h
    split at h
    · simp only [Option.some.injEq] at h
      subst h
      exact ⟨‹_›, rfl, rfl, Or.inl rfl, Or.inl rfl⟩
    · cases h
  | select i =>
    simp only [step] at h
    split at h
    · simp only [Option.some.injEq] at h
      subst h
      exact ⟨‹_›, rfl, rfl, Or.inr ⟨i, rfl⟩, Or.inl rfl⟩
    · cases h
  | click =>
    simp only [step] at h
    split at h
    · simp only [Option.some.injEq] at h
      subst h
      exact ⟨‹_›, rfl, rfl, Or.inl rfl, Or.inr rfl⟩
    · cases h
  | settle k o => exact absurd rfl (he k o)

/-- A property of worlds kept by every event is kept by every trace. -/
theorem run_preserves (P : World → Prop)
    (hstep : ∀ e w w', P w → step e w = some w' → P w') :
    ∀ evs w w', P w → run evs w = some w' → P w' := by
  intro evs
  induction evs with
  | nil =>
    intro w w' hw h
    simp only [run, Option.some.injEq] at h
    exact h ▸ hw
  | cons e es ih =>
    intro w w' hw h
    simp only [run] at h
    cases hs : step e w with
    | none => simp [hs] at h
    | some w1 =>
      rw [hs] at h
      exact ih w1 w' (hstep e w w1 hw hs) h

/-- No event writes the `sourceLang` cell. -/
theorem step_sourceLang (e : Event) (w w' : World) (h : step e w = some w') :
    w'.state.sourceLang = w.state.sourceLang := by
  cases e with
  | input v => exact (step_user_some _ w w' h (fun _ _ hk => by cases hk)).2.2.1
  | select i => exact (step_user_some _ w w' h (fun _ _ hk => by cases hk)).2.2.1
  | click => exact (step_user_some _ w w' h (fun _ _ hk => by cases hk)).2.2.1
  | settle k o =>
    obtain ⟨hs, _⟩ := step_settle_some k o w w' h
    rw [hs]
    split
    · cases o.carried <;> rfl
    · rfl

theorem lastCarried_cons (o : Outcome) (trace : List Outcome) (prior : JSValue) :
    (lastCarried (o :: trace)).getD prior
      = (lastCarried trace).getD ((o.carried).getD prior) := by
  unfold lastCarried
  rw [List.reverse_cons, List.filterMap_append]
  cases hrest : List.filterMap Outcome.carried trace.reverse with
  | nil =>
    cases hc : o.carried <;> simp [List.filterMap, hc]
  | cons v vs => simp

/-! ## One call of `translateText` -/

/-- C1: for every state of the form, whatever the text (the empty string
included) and whatever the target language, one call of `translateText` returns
normally and adds exactly one request to those sent: a post to the fixed URL
whose body is the object with exactly the two fields `text`, the current text
unchanged, and `target_lang`, the current target language. -/
theorem translateText_sends_one_request (o : Outcome) (w : World) :
    ∃ w', translateText o w = .ok w' ∧
      w'.outbox = w.outbox ++
        [{ url := "http://127.0.0.1:8000/translate"
           data := .object [("text", .string w.state.text),
                            ("target_lang", .string w.state.targetLang)] }] := by
  obtain ⟨w', h, _, ho⟩ := translateText_ok o w
  exact ⟨w', h, ho⟩

/-- C2: when the request resolves with a response (of any status) whose body is
an object with a `translation` property that is the string `s`, the call
returns normally and the display cell holds exactly `s` afterwards, whatever it
held before. -/
theorem translateText_success_sets_display (w : World) (status : Nat)
    (props : List (String × JSValue)) (s : String)
    (h : lookupProp "translation" props = some (.string s)) :
    ∃ w', translateText (.resolved ⟨status, .object props⟩) w = .ok w' ∧
      w'.state.translation = .string s := by
  obtain ⟨w', hw, hs, _⟩ :=
    translateText_ok (.resolved ⟨status, .object props⟩) w
  refine ⟨w', hw, ?_⟩
  rw [hs]
  simp [Outcome.carried, JSValue.translation, Except.toOption, h, setTranslation]

/-- Witness for C2: the display shows "Bonjour" from an earlier call and the
response carries "Hola" (after an unrelated property). -/
theorem translateText_success_sets_display_witness :
    lookupProp "translation" [("lang", .string "es"), ("translation", .string "Hola")]
        = some (.string "Hola") ∧
      ∃ w', translateText (.resolved ⟨200, .object
              [("lang", .string "es"), ("translation", .string "Hola")]⟩) shownBonjour
            = .ok w' ∧
        w'.state.translation = .string "Hola" :=
  ⟨by simp [lookupProp], translateText_success_sets_display shownBonjour 200
      [("lang", .string "es"), ("translation", .string "Hola")] "Hola" (by simp [lookupProp])⟩

/-- C3: when the request promise rejects, with whatever error value, the call
returns normally (nothing escapes to the caller), the display cell holds what
it held before, and the error has been passed to `console.error`. -/
theorem translateText_rejected_keeps_display (w : World) (error : JSValue) :
    ∃ w', translateText (.rejected error) w = .ok w' ∧
      w'.state.translation = w.state.translation ∧
      w'.console = w.console ++ [[.string "Translation Error:", error]] :=
  ⟨_, rfl, rfl, rfl⟩

/-- C4, counterexample: with "Bonjour" on display, a 200 response whose body is
an object without a `translation` field, a plain string, or an object whose
`translation` is a number, is not treated as a failure: the call returns
normally and the display cell is overwritten, with `undefined`, `undefined`
and the number respectively. -/
theorem translateText_malformed_overwrites_display :
    shownBonjour.state.translation = .string "Bonjour" ∧
    (∃ w', translateText (.resolved ⟨200, .object []⟩) shownBonjour = .ok w' ∧
      w'.state.translation = .undefined ∧
      w'.state.translation ≠ shownBonjour.state.translation) ∧
    (∃ w', translateText (.resolved ⟨200, .string "<html>"⟩) shownBonjour
        = .ok w' ∧
      w'.state.translation = .undefined ∧
      w'.state.translation ≠ shownBonjour.state.translation) ∧
    (∃ w', translateText (.resolved ⟨200, .object [("translation", .number 5)]⟩) shownBonjour
        = .ok w' ∧
      w'.state.translation = .number 5 ∧
      w'.state.translation ≠ shownBonjour.state.translation) := by
  refine ⟨rfl, ⟨_, rfl, rfl, ?_⟩, ⟨_, rfl, rfl, ?_⟩, ⟨_, rfl, ?_, ?_⟩⟩
  · intro h; cases h
  · intro h; cases h
  · simp [translateText_start, setTranslation, lookupProp]
  · intro h; cases h

/-- C4, as amended: for every prior state and every resolved response the call
returns normally; the display cell keeps its value when the body is `null` or
`undefined`, becomes the body's `translation` property when the body is an
object (`undefined` when the property is missing, the property's value
whatever its type otherwise), and becomes `undefined` for every other body
(plain string, number, boolean, array). -/
theorem translateText_resolved_display (w : World) (response : Response) :
    ∃ w', translateText (.resolved response) w = .ok w' ∧
      w'.state.translation =
        (match response.data with
          | .null => w.state.translation
          | .undefined => w.state.translation
          | .object props => (lookupProp "translation" props).getD .undefined
          | .bool _ => .undefined
          | .number _ => .undefined
          | .string _ => .undefined
          | .array _ => .undefined) := by
  obtain ⟨status, data⟩ := response
  cases data <;> exact ⟨_, rfl, rfl⟩

/-- C5: for two worlds whose states agree on the text and on the target
language, whatever their source languages, `translateText` sends the same
request, URL and body; the body is the object with the two fields `text` and
`target_lang` and nothing else. -/
theorem translateText_request_ignores_sourceLang (w₁ w₂ : World) (o₁ o₂ : Outcome)
    (htext : w₁.state.text = w₂.state.text)
    (htarget : w₁.state.targetLang = w₂.state.targetLang) :
    ∃ r w₁' w₂', translateText o₁ w₁ = .ok w₁' ∧ translateText o₂ w₂ = .ok w₂' ∧
      w₁'.outbox = w₁.outbox ++ [r] ∧ w₂'.outbox = w₂.outbox ++ [r] ∧
      r.url = "http://127.0.0.1:8000/translate" ∧
      r.data = .object [("text", .string w₁.state.text),
                        ("target_lang", .string w₁.state.targetLang)] := by
  obtain ⟨w₁', h₁, _, ho₁⟩ := translateText_ok o₁ w₁
  obtain ⟨w₂', h₂, _, ho₂⟩ := translateText_ok o₂ w₂
  refine ⟨translateText_request w₁.state, w₁', w₂', h₁, h₂, ho₁, ?_, rfl, rfl⟩
  rw [ho₂]
  simp [translateText_request, htext, htarget]

/-- Witness for C5: the same form with source language "auto" and with source
language "hi" sends the same request. -/
theorem translateText_request_ignores_sourceLang_witness :
    (shownBonjour.state.sourceLang = "auto" ∧
      ({ shownBonjour with state := setSourceLang "hi" shownBonjour.state } : World).state.sourceLang
        = "hi") ∧
    ∃ r w₁' w₂',
      translateText (.rejected .null) shownBonjour = .ok w₁' ∧
      translateText (.rejected .null)
        { shownBonjour with state := setSourceLang "hi" shownBonjour.state } = .ok w₂' ∧
      w₁'.outbox = shownBonjour.outbox ++ [r] ∧
      w₂'.outbox = shownBonjour.outbox ++ [r] ∧
      r.url = "http://127.0.0.1:8000/translate" ∧
      r.data = .object [("text", .string shownBonjour.state.text),
                        ("target_lang", .string shownBonjour.state.targetLang)] :=
  ⟨⟨rfl, rfl⟩, translateText_request_ignores_sourceLang shownBonjour
    { shownBonjour with state := setSourceLang "hi" shownBonjour.state }
    (.rejected .null) (.rejected .null) rfl rfl⟩

/-- C8: whatever the outcome of the request (resolved with any body, or
rejected), the call returns normally and leaves `text`, `sourceLang` and
`targetLang` as they were. -/
theorem translateText_keeps_inputs (o : Outcome) (w : World) :
    ∃ w', translateText o w = .ok w' ∧
      w'.state.text = w.state.text ∧
      w'.state.sourceLang = w.state.sourceLang ∧
      w'.state.targetLang = w.state.targetLang := by
  obtain ⟨w', h, hs, _⟩ := translateText_ok o w
  refine ⟨w', h, ?_⟩
  rw [hs]
  cases o.carried <;> exact ⟨rfl, rfl, rfl⟩

/-! ## Traces of events -/

/-- C6, counterexample: no sequence of events on the mounted component ever
changes `sourceLang`; it cannot be set to "fr" (or to anything but its initial
"auto") by user interaction, since no rendered element calls `setSourceLang`. -/
theorem sourceLang_not_settable :
    ¬ ∃ (evs : List Event) (w : World),
        run evs World.initial = some w ∧ w.state.sourceLang = "fr" := by
  rintro ⟨evs, w, hrun, hfr⟩
  have hauto : w.state.sourceLang = "auto" :=
    run_preserves (fun w => w.state.sourceLang = "auto")
      (fun e w w' hw h => (step_sourceLang e w w' h).trans hw) evs World.initial w rfl hrun
  rw [hauto] at hfr
  exact absurd hfr (by decide)

/-- C6, as amended: `text` and `targetLang` are each settable by user
interaction. The handler of the textarea sets `text` to the typed value and the
handler of the dropdown sets `targetLang` to the chosen option's value; each of
the two handlers leaves the other three cells, the display included, unchanged;
and on every mounted component typing and picking an option run exactly these
handlers. -/
theorem text_and_targetLang_settable :
    (∀ (w : World) (v : String),
        (textarea_onChange v w).state.text = v ∧
        (textarea_onChange v w).state.sourceLang = w.state.sourceLang ∧
        (textarea_onChange v w).state.targetLang = w.state.targetLang ∧
        (textarea_onChange v w).state.translation = w.state.translation ∧
        (w.mounted = true → step (.input v) w = some (textarea_onChange v w))) ∧
    (∀ (w : World) (i : Fin options.length),
        (select_onChange i w).state.targetLang = (options.get i).1 ∧
        (select_onChange i w).state.text = w.state.text ∧
        (select_onChange i w).state.sourceLang = w.state.sourceLang ∧
        (select_onChange i w).state.translation = w.state.translation ∧
        (w.mounted = true → step (.select i) w = some (select_onChange i w))) :=
  ⟨fun _ _ => ⟨rfl, rfl, rfl, rfl, fun hm => by simp [step, hm]⟩,
   fun _ _ => ⟨rfl, rfl, rfl, rfl, fun hm => by simp [step, hm]⟩⟩

/-- Witness for C6: on the fresh form, typing "Hello" and picking the third
option ("fr") are events that happen and set the two cells. -/
theorem text_and_targetLang_settable_witness :
    World.initial.mounted = true ∧
    (∃ w', step (.input "Hello") World.initial = some w' ∧ w'.state.text = "Hello") ∧
    (∃ w', step (.select ⟨2, by decide⟩) World.initial = some w' ∧
      w'.state.targetLang = "fr") :=
  ⟨rfl,
   ⟨_, (text_and_targetLang_settable.1 World.initial "Hello").2.2.2.2 rfl, rfl⟩,
   ⟨_, (text_and_targetLang_settable.2 World.initial ⟨2, by decide⟩).2.2.2.2 rfl, rfl⟩⟩

/-- While every value handed to `setTranslation` is one React accepts, the
display after a trace is fixed by the settlements of the trace, in the order
they happen. -/
theorem run_translation :
    ∀ (evs : List Event) (w w' : World), w.mounted = true →
      (∀ o ∈ settled evs, ∀ v, o.carried = some v → v.renderable = true) →
      run evs w = some w' →
      w'.state.translation = (lastCarried (settled evs)).getD w.state.translation := by
  intro evs
  induction evs with
  | nil =>
    intro w w' _ _ h
    simp only [run, Option.some.injEq] at h
    subst h
    rfl
  | cons e es ih =>
    intro w w' hm hr h
    simp only [run] at h
    cases hs : step e w with
    | none => simp [hs] at h
    | some w1 =>
      rw [hs] at h
      cases e with
      | input v =>
        obtain ⟨_, ht, _⟩ := step_user_some _ w w1 hs (fun _ _ hk => by cases hk)
        have hm1 : w1.mounted = true := by unfold World.mounted at hm ⊢; rw [ht]; exact hm
        rw [ih w1 w' hm1 hr h, ht]
        rfl
      | select i =>
        obtain ⟨_, ht, _⟩ := step_user_some _ w w1 hs (fun _ _ hk => by cases hk)
        have hm1 : w1.mounted = true := by unfold World.mounted at hm ⊢; rw [ht]; exact hm
        rw [ih w1 w' hm1 hr h, ht]
        rfl
      | click =>
        obtain ⟨_, ht, _⟩ := step_user_some _ w w1 hs (fun _ _ hk => by cases hk)
        have hm1 : w1.mounted = true := by unfold World.mounted at hm ⊢; rw [ht]; exact hm
        rw [ih w1 w' hm1 hr h, ht]
        rfl
      | settle k o =>
        obtain ⟨hst, _⟩ := step_settle_some k o w w1 hs
        rw [if_pos hm] at hst
        have hr1 : ∀ o' ∈ settled es, ∀ v, o'.carried = some v → v.renderable = true :=
          fun o' ho' => hr o' (List.mem_cons_of_mem _ ho')
        have hhead : ∀ v, o.carried = some v → v.renderable = true :=
          hr o (List.mem_cons_self _ _)
        simp only [settled]
        rw [lastCarried_cons]
        cases hc : o.carried with
        | none =>
          rw [hc] at hst
          have ht : w1.state.translation = w.state.translation := by rw [hst]
          have hm1 : w1.mounted = true := by unfold World.mounted at hm ⊢; rw [ht]; exact hm
          rw [ih w1 w' hm1 hr1 h, ht]
          rfl
        | some v =>
          rw [hc] at hst
          have ht : w1.state.translation = v := by rw [hst]; rfl
          have hm1 : w1.mounted = true := by unfold World.mounted; rw [ht]; exact hhead v hc
          rw [ih w1 w' hm1 hr1 h, ht]
          rfl

/-- Once a settlement has stored a plain object the component is gone: the
later answer "Bonjour" is not applied, and a further click cannot happen. -/
theorem object_translation_unmounts :
    (∃ w, run objectBody World.initial = some w ∧ w.mounted = false ∧
      w.state.translation = .object [("a", .number 1)]) ∧
    run (objectBody ++ [.click]) World.initial = none :=
  ⟨⟨_, rfl, rfl, rfl⟩, rfl⟩

/-- C7, counterexample: two requests are sent; the second is answered first
with "Bonjour", the first is answered last with a 200 whose body `{}` has no
`translation`. In the spec's reading the last successful response of the trace
is the one carrying "Bonjour" and the late one is a failure, yet the display
ends on `undefined`, not on "Bonjour". -/
theorem late_failure_overwrites_display :
    lastSpecSuccess (settled lateEmptyBody) = some "Bonjour" ∧
    ∃ w, run lateEmptyBody World.initial = some w ∧
      w.state.translation = .undefined ∧
      w.state.translation ≠ .string "Bonjour" := by
  refine ⟨?_, _, rfl, rfl, ?_⟩
  · simp [lastSpecSuccess, settled, lateEmptyBody, Outcome.specSuccess, lookupProp]
  · intro h; cases h

/-- C7, as amended: last writer wins among the settlements that reach
`setTranslation`. After any trace of events (requests sent and settled in any
interleaving) on a mounted component, in which every value handed to
`setTranslation` is one React accepts, the display holds
`response.data.translation` of the last settlement in the trace whose promise
resolved with a body other than `null` and `undefined`, and its prior value
when there is none. The order in which the requests were sent does not enter; a
settlement that ends in the `catch` changes nothing. -/
theorem last_settled_wins (evs : List Event) (w w' : World)
    (hmounted : w.mounted = true)
    (hshown : ∀ o ∈ settled evs, ∀ v, o.carried = some v → v.renderable = true)
    (h : run evs w = some w') :
    w'.state.translation = (lastCarried (settled evs)).getD w.state.translation :=
  run_translation evs w w' hmounted hshown h

/-- Witness for C7: in the double submit the display ends on "Bonjour", the
answer to the request that was sent first and settled last. -/
theorem last_settled_wins_witness :
    ∃ w', run doubleSubmit World.initial = some w' ∧
      w'.outbox.map Request.data =
        [ .object [("text", .string "Hello"), ("target_lang", .string "fr")],
          .object [("text", .string "Hello"), ("target_lang", .string "hi")],
          .object [("text", .string "Hello"), ("target_lang", .string "hi")] ] ∧
      w'.state.translation = .string "Bonjour" :=
  ⟨_, rfl, rfl,
    (last_settled_wins doubleSubmit World.initial _ rfl
      (by
        intro o ho v hv
        simp only [doubleSubmit, settled, List.mem_cons, List.mem_singleton,
          List.not_mem_nil, or_false] at ho
        rcases ho with rfl | rfl | rfl
        · cases hv; rfl
        · cases hv
        · cases hv; rfl)
      rfl).trans rfl⟩

theorem lastCarried_none (trace : List Outcome)
    (h : ∀ o ∈ trace, o.carried = none) : lastCarried trace = none := by
  have hnil : trace.reverse.filterMap Outcome.carried = [] := by
    rw [List.filterMap_eq_nil_iff]
    intro o ho
    exact h o (List.mem_reverse.mp ho)
  simp [lastCarried, hnil]

/-- C9, counterexample: from the fresh form, one submission that fails in the
spec's reading (a 200 whose `translation` is the number 5, or whose body is
unparsed text) leaves the number 5, respectively `undefined`, in the display
cell instead of the empty string. -/
theorem shape_failure_changes_blank_display :
    (∀ o ∈ settled numberBody, o.specSuccess = none) ∧
    (∃ w, run numberBody World.initial = some w ∧
      w.state.translation = .number 5 ∧ w.state.translation ≠ .string "") ∧
    (∀ o ∈ settled textBody, o.specSuccess = none) ∧
    (∃ w, run textBody World.initial = some w ∧
      w.state.translation = .undefined ∧ w.state.translation ≠ .string "") := by
  refine ⟨?_, ⟨_, rfl, rfl, ?_⟩, ?_, ⟨_, rfl, rfl, ?_⟩⟩
  · intro o ho
    simp only [numberBody, settled, List.mem_singleton] at ho
    subst ho
    simp [Outcome.specSuccess, lookupProp]
  · intro h; cases h
  · intro o ho
    simp only [textBody, settled, List.mem_singleton] at ho
    subst ho
    rfl
  · intro h; cases h

/-- C9, as amended: the display starts as the empty string, and after any trace
of events from the freshly mounted component in which every settlement ended in
the `catch` (the request was rejected, or resolved with a `null` or `undefined`
body) it still is the empty string. -/
theorem display_blank_until_success (evs : List Event) (w : World)
    (hfailed : ∀ o ∈ settled evs, o.carried = none)
    (hrun : run evs World.initial = some w) :
    World.initial.state.translation = .string "" ∧ w.state.translation = .string "" := by
  refine ⟨rfl, ?_⟩
  have hshown : ∀ o ∈ settled evs, ∀ v, o.carried = some v → v.renderable = true := by
    intro o ho v hv
    rw [hfailed o ho] at hv
    cases hv
  rw [run_translation evs World.initial w rfl hshown hrun, lastCarried_none _ hfailed]
  rfl

/-- Witness for C9: edits and three failed submissions. -/
theorem display_blank_until_success_witness :
    ∃ w, run failedSubmits World.initial = some w ∧
      w.console.length = 3 ∧ w.state.translation = .string "" :=
  ⟨_, rfl, rfl,
    (display_blank_until_success failedSubmits _
      (by
        intro o ho
        simp only [failedSubmits, settled, List.mem_cons, List.mem_singleton,
          List.not_mem_nil, or_false] at ho
        rcases ho with rfl | rfl | rfl <;> rfl)
      rfl).2⟩

theorem step_targetLangOk (e : Event) (w w' : World)
    (hw : TargetLangOk w) (h : step e w = some w') : TargetLangOk w' := by
  obtain ⟨hl, hout⟩ := hw
  have hopt : ∀ i : Fin options.length, (options.get i).1 ∈ ["en", "hi", "fr"] := by decide
  have huser : (∀ k o, e ≠ .settle k o) → TargetLangOk w' := by
    intro he
    obtain ⟨_, _, _, htl, hob⟩ := step_user_some e w w' h he
    refine ⟨?_, ?_⟩
    · rcases htl with htl | ⟨i, htl⟩
      · rw [htl]; exact hl
      · rw [htl]; exact hopt i
    · intro r hr
      rcases hob with hob | hob
      · rw [hob] at hr; exact hout r hr
      · rw [hob, List.mem_append, List.mem_singleton] at hr
        rcases hr with hr | rfl
        · exact hout r hr
        · exact ⟨w.state.text, w.state.targetLang, rfl, hl⟩
  cases e with
  | input v => exact huser (fun _ _ hk => by cases hk)
  | select i => exact huser (fun _ _ hk => by cases hk)
  | click => exact huser (fun _ _ hk => by cases hk)
  | settle k o =>
    obtain ⟨hs, ho⟩ := step_settle_some k o w w' h
    refine ⟨?_, ?_⟩
    · rw [hs]
      split
      · cases o.carried <;> exact hl
      · exact hl
    · rw [ho]
      exact hout

/-- C10: after any trace of events from the freshly mounted component, the
target language is one of the option values "en", "hi", "fr", and the body of
every request sent so far is the object of a `text` and a `target_lang` whose
`target_lang` is one of these three codes. -/
theorem targetLang_among_options (evs : List Event) (w : World)
    (hrun : run evs World.initial = some w) :
    w.state.targetLang ∈ ["en", "hi", "fr"] ∧
      ∀ r ∈ w.outbox, ∃ t l,
        r.data = .object [("text", .string t), ("target_lang", .string l)] ∧
          l ∈ ["en", "hi", "fr"] :=
  run_preserves TargetLangOk step_targetLangOk evs World.initial w
    ⟨by decide, fun _ hr => absurd hr (List.not_mem_nil _)⟩ hrun

/-- Witness for C10: the trace of failed submissions ends with target language
"fr". -/
theorem targetLang_among_options_witness :
    ∃ w, run failedSubmits World.initial = some w ∧
      w.state.targetLang = "fr" ∧ w.state.targetLang ∈ ["en", "hi", "fr"] :=
  ⟨_, rfl, rfl, (targetLang_among_options failedSubmits _ rfl).1⟩

end App
